import Mathlib

/-!
Shallow embedding of the face-recognition attendance system.

The embedding covers `database.py` (SQLite tables and the attendance
operations), `face_detector.py` (the matcher `detect_faces_in_frame` and the
desktop marking loop of `start_attendance_session`), `fastAPI.py` (the
one-shot `/api/attendance/detect` endpoint), and `server.py` (the
Socket.IO `SessionManager` and the `handle_start_detection`,
`handle_disconnect` and `handle_frame` event handlers).

Modelling conventions:
* SQLite tables become Lean lists of rows; `INSERT OR IGNORE` under the
  `UNIQUE(session_id, student_id)` constraint becomes an explicit
  presence test before appending.
* Python floats are modelled as rationals (all arithmetic used by the
  claims is exact).
* The external `face_recognition.face_distance` capability (a third-party
  library, not part of this repository) is an abstract parameter
  `fd : List Encoding → Encoding → List ℚ` that returns one distance per
  gallery encoding; the spec describes it as the Euclidean distance.
* Timestamps are abstract naturals supplied by the caller.
* French diagnostic strings are transliterated to plain ASCII.
-/

namespace FaceAttendance

/-- A row of the `students` table (`database.py`, `init_database`).  The
pickled face-encoding blob becomes an optional vector of rationals. -/
structure Student where
  id : Nat
  first_name : String
  last_name : String
  email : String
  photo_path : Option String
  encoding : Option (List ℚ)
deriving DecidableEq

/-- A row of the `attendance` table; the schema enforces
`UNIQUE(session_id, student_id)` and defaults `status` to `present`. -/
structure AttendanceRecord where
  session_id : Nat
  student_id : Nat
  check_in_time : Nat
  status : String
deriving DecidableEq

/-- A row of the `sessions` table (the durable ledger session). -/
structure LedgerSession where
  id : Nat
  professor_id : Option Nat
  subject : String
  end_time : Option Nat
deriving DecidableEq

/-- The persistent store: the three tables the claims touch. -/
structure DBState where
  students : List Student
  sessions : List LedgerSession
  attendance : List AttendanceRecord
deriving DecidableEq

/-- Whether an attendance record for the pair `(s, i)` exists. -/
def hasRecord (db : DBState) (s i : Nat) : Bool :=
  db.attendance.any (fun r => r.session_id == s && r.student_id == i)

/-- Number of attendance records for the pair `(s, i)`. -/
def countRecords (db : DBState) (s i : Nat) : Nat :=
  db.attendance.countP (fun r => r.session_id == s && r.student_id == i)

/-- `INSERT OR IGNORE INTO attendance` under the unique constraint on
`(session_id, student_id)`: inserts iff no record exists; the returned
Bool is `c.rowcount > 0`. -/
def insertOrIgnore (db : DBState) (s i t : Nat) : DBState × Bool :=
  if hasRecord db s i then (db, false)
  else ({ db with attendance := db.attendance ++ [⟨s, i, t, "present"⟩] }, true)

/-- `AttendanceDatabase.mark_attendance` (database.py:284): returns `True`
iff a new row was inserted. -/
def mark_attendance (db : DBState) (s i t : Nat) : DBState × Bool :=
  insertOrIgnore db s i t

/-- `AttendanceDatabase.mark_attendance_socketIO` of database.py line 308:
returns `(newly_marked, message)`. -/
def mark_attendance_socket (db : DBState) (s i t : Nat) : DBState × Bool × String :=
  let r := insertOrIgnore db s i t
  if r.2 then
    (r.1, true, "Presence marquee pour l etudiant ID: " ++ toString i)
  else
    (r.1, false, "Presence deja marquee pour l etudiant ID : " ++ toString i)

/-- A sequence of `mark_attendance_socketIO` calls with the same `(s, i)`,
one timestamp per call; returns the final store and the list of
`newly_marked` results in call order. -/
def markSeq (db : DBState) (s i : Nat) (ts : List Nat) : DBState × List Bool :=
  match ts with
  | [] => (db, [])
  | t :: rest =>
      let r1 := mark_attendance_socket db s i t
      let r2 := markSeq r1.1 s i rest
      (r2.1, r1.2.1 :: r2.2)

/-- Result of `AttendanceDatabase.get_session_stats` (database.py:357). -/
structure SessionStats where
  total : Nat
  present : Nat
  absent : Int
  percentage : ℚ
deriving DecidableEq

/-- `AttendanceDatabase.get_session_stats`: `total` counts the whole
`students` table, `present` counts the attendance rows of the given
session, `absent = total - present`, and
`percentage = present/total*100` guarded by `total > 0`. -/
def get_session_stats (db : DBState) (s : Nat) : SessionStats :=
  let total := db.students.length
  let present := (db.attendance.filter (fun r => r.session_id == s)).length
  { total := total
    present := present
    absent := (total : Int) - (present : Int)
    percentage := if 0 < total then (present : ℚ) / (total : ℚ) * 100 else 0 }

/-- `AttendanceDatabase.remove_student` (database.py:182): looks the
student up, and when found deletes the student's attendance rows across
all sessions and the student row, returning `(True, photo_path)`;
returns `(False, None)` when the id is unknown. -/
def remove_student (db : DBState) (student_id : Nat) : DBState × Bool × Option String :=
  match db.students.find? (fun st => st.id == student_id) with
  | none => (db, false, none)
  | some st =>
      ({ db with
          students := db.students.filter (fun s2 => !(s2.id == student_id)),
          attendance := db.attendance.filter (fun r => !(r.student_id == student_id)) },
        true, st.photo_path)

/-- The identity summary built by `get_student_encodings`. -/
structure StudentInfo where
  id : Nat
  name : String
  first_name : String
  last_name : String
deriving DecidableEq

/-- `AttendanceDatabase.get_student_encodings` (database.py:219): scans
students whose encoding is non-null and returns the parallel lists
`(encodings, students_info)`. -/
def get_student_encodings (db : DBState) : List (List ℚ) × List StudentInfo :=
  let rows := db.students.filter (fun st => st.encoding.isSome)
  (rows.filterMap (fun st => st.encoding),
   rows.map (fun st =>
     { id := st.id
       name := st.first_name ++ " " ++ st.last_name
       first_name := st.first_name
       last_name := st.last_name }))

/-- A face feature vector. -/
abbrev Encoding := List ℚ

/-- State of `FaceDetector` (face_detector.py): tolerance, the gallery
snapshot (parallel lists) and the per-session marked set. -/
structure FaceDetector where
  tolerance : ℚ
  known_encodings : List Encoding
  known_students : List StudentInfo
  marked_students : List Nat
deriving DecidableEq

/-- One located face of a frame, as handed over by the external feature
extractor: its encoding plus its `(top, right, bottom, left)` region in
downscaled (0.25x) coordinates. -/
structure FaceInput where
  encoding : Encoding
  top : Int
  right : Int
  bottom : Int
  left : Int
deriving DecidableEq

/-- One entry of the list returned by `detect_faces_in_frame`. -/
structure DetectedFace where
  student : StudentInfo
  location : Int × Int × Int × Int
  distance : ℚ
  confidence : ℚ
deriving DecidableEq

/-- `np.argmin`: index of the first occurrence of the minimum. -/
def argmin : List ℚ → Nat
  | [] => 0
  | [_] => 0
  | x :: y :: ys =>
      if (y :: ys).getD (argmin (y :: ys)) 0 < x then argmin (y :: ys) + 1 else 0

/-- Default identity summary used for out-of-range gallery access. -/
def defaultInfo : StudentInfo := { id := 0, name := "", first_name := "", last_name := "" }

/-- The body of the per-face loop of `FaceDetector.detect_faces_in_frame`
(face_detector.py:119-144): computes the distances to the gallery via the
external capability `fd`, skips the face when the distance list is empty,
otherwise accepts iff the best distance is strictly below the tolerance,
rescaling the region by 4 and attaching `confidence = (1 - d) * 100`. -/
def processFace (fd : List Encoding → Encoding → List ℚ) (det : FaceDetector)
    (f : FaceInput) : Option DetectedFace :=
  let distances := fd det.known_encodings f.encoding
  if distances.length = 0 then none
  else
    let best_match_index := argmin distances
    let best_distance := distances.getD best_match_index 0
    if best_distance < det.tolerance then
      some { student := det.known_students.getD best_match_index defaultInfo
             location := (4 * f.top, 4 * f.right, 4 * f.bottom, 4 * f.left)
             distance := best_distance
             confidence := (1 - best_distance) * 100 }
    else none

/-- `FaceDetector.detect_faces_in_frame` over the located faces of a frame. -/
def detect_faces_in_frame (fd : List Encoding → Encoding → List ℚ)
    (det : FaceDetector) (faces : List FaceInput) : List DetectedFace :=
  faces.filterMap (processFace fd det)

/-- The marking loop of `FaceDetector.start_attendance_session`
(face_detector.py:199-211): for each detected face, call
`mark_attendance` only when the student is not in `marked_students`, and
add the student to the set only when the call reports a new record.  The
third component records every `(session_id, student_id)` mark call made. -/
def desktop_mark_loop (db : DBState) (session_id : Nat) (marked : List Nat)
    (faces : List DetectedFace) (t : Nat) : DBState × List Nat × List (Nat × Nat) :=
  match faces with
  | [] => (db, marked, [])
  | f :: rest =>
      let sid := f.student.id
      if sid ∈ marked then desktop_mark_loop db session_id marked rest t
      else
        let r := mark_attendance db session_id sid t
        let marked1 := if r.2 then marked ++ [sid] else marked
        let rec1 := desktop_mark_loop r.1 session_id marked1 rest t
        (rec1.1, rec1.2.1, (session_id, sid) :: rec1.2.2)

/-- One entry of the `students` list of the one-shot endpoint reply. -/
structure MarkedStudent where
  student_id : Nat
  name : String
  confidence : ℚ
  marked : Bool
  already_present : Bool
deriving DecidableEq

/-- Reply payload of `/api/attendance/detect`. -/
structure DetectReply where
  session_id : Nat
  detected_count : Nat
  students : List MarkedStudent
  stats : SessionStats
deriving DecidableEq

/-- The marking loop of `detect_and_mark_attendance` (fastAPI.py:509-520):
marks every detected face unconditionally and records the outcome. -/
def detect_mark_loop (db : DBState) (session_id : Nat) (faces : List DetectedFace)
    (t : Nat) : DBState × List MarkedStudent :=
  match faces with
  | [] => (db, [])
  | f :: rest =>
      let r := mark_attendance db session_id f.student.id t
      let rec1 := detect_mark_loop r.1 session_id rest t
      (rec1.1,
       { student_id := f.student.id
         name := f.student.name
         confidence := f.confidence
         marked := r.2
         already_present := !r.2 } :: rec1.2)

/-- The one-shot endpoint `detect_and_mark_attendance` (fastAPI.py:491-535),
after transport decoding: reloads the gallery from the store, rejects the
request with an HTTP 400 error when no encoding is available, otherwise
runs the matcher, marks every detected face and returns the summary with
the session statistics. -/
def detect_and_mark_attendance (fd : List Encoding → Encoding → List ℚ)
    (tolerance : ℚ) (db : DBState) (session_id : Nat) (faces : List FaceInput)
    (t : Nat) : Except String (DBState × DetectReply) :=
  let loaded := get_student_encodings db
  if loaded.1.length = 0 then .error "Aucun encodage etudiant disponible"
  else
    let det : FaceDetector :=
      { tolerance := tolerance
        known_encodings := loaded.1
        known_students := loaded.2
        marked_students := [] }
    let detected := detect_faces_in_frame fd det faces
    let outcome := detect_mark_loop db session_id detected t
    .ok (outcome.1,
      { session_id := session_id
        detected_count := detected.length
        students := outcome.2
        stats := get_session_stats outcome.1 session_id })

/-- A connection session record as built by
`SessionManager.create_session_for_sid` (server.py:72-86). -/
structure ConnSession where
  session_id : String
  sid : Nat
  created_at : Nat
  last_seen : Nat
  active : Bool
  detection : Bool
  db_session_id : Option Nat
deriving DecidableEq

/-- `SessionManager` (server.py:61): the `sessions` dict keyed by session
id and the reverse `sid_to_session` dict, both as association lists. -/
structure SessionManager where
  sessions : List (String × ConnSession)
  sid_to_session : List (Nat × String)
deriving DecidableEq

/-- Python dict assignment `d[k] = v`: overwrite an existing key in place,
otherwise append. -/
def dictInsert {α β : Type} [BEq α] (l : List (α × β)) (k : α) (v : β) :
    List (α × β) :=
  if l.any (fun p => p.1 == k) then l.map (fun p => if p.1 == k then (k, v) else p)
  else l ++ [(k, v)]

/-- Python `d.pop(k, None)`: remove the key when present. -/
def dictPop {α β : Type} [BEq α] (l : List (α × β)) (k : α) : List (α × β) :=
  l.filter (fun p => !(p.1 == k))

/-- `SessionManager.create_session_for_sid`; the fresh uuid is a parameter. -/
def create_session_for_sid (m : SessionManager) (sid : Nat) (fresh_id : String)
    (now : Nat) : SessionManager × String :=
  let info : ConnSession :=
    { session_id := fresh_id, sid := sid, created_at := now, last_seen := now,
      active := true, detection := false, db_session_id := none }
  ({ sessions := dictInsert m.sessions fresh_id info
     sid_to_session := dictInsert m.sid_to_session sid fresh_id }, fresh_id)

/-- `SessionManager.get_by_sid` (server.py:88-92). -/
def get_by_sid (m : SessionManager) (sid : Nat) : Option ConnSession :=
  match m.sid_to_session.lookup sid with
  | none => none
  | some k => m.sessions.lookup k

/-- `SessionManager.set_detection` (server.py:94-100); the in-place dict
mutation becomes an update of the entry found under the looked-up key. -/
def set_detection (m : SessionManager) (sid : Nat) (enabled : Bool) (now : Nat) :
    SessionManager × Bool :=
  match m.sid_to_session.lookup sid with
  | none => (m, false)
  | some k =>
      match m.sessions.lookup k with
      | none => (m, false)
      | some s =>
          ({ m with sessions :=
              dictInsert m.sessions k { s with detection := enabled, last_seen := now } },
           true)

/-- `SessionManager.mark_inactive` (server.py:102-108): when the session is
found, set `active = False`, refresh `last_seen` and pop the reverse
mapping; the session itself stays in `sessions`. -/
def mark_inactive (m : SessionManager) (sid : Nat) (now : Nat) : SessionManager :=
  match m.sid_to_session.lookup sid with
  | none => m
  | some k =>
      match m.sessions.lookup k with
      | none => m
      | some s =>
          { sessions := dictInsert m.sessions k { s with active := false, last_seen := now }
            sid_to_session := dictPop m.sid_to_session sid }

/-- `handle_disconnect` (server.py:128-135): marks the session inactive and
never touches the persistent store (the ledger session is not ended). -/
def handle_disconnect (m : SessionManager) (db : DBState) (sid : Option Nat)
    (now : Nat) : SessionManager × DBState :=
  match sid with
  | none => (m, db)
  | some sd => (mark_inactive m sd now, db)

/-- Payload of an `attendance_marked` notification (server.py:275-282). -/
structure AttendancePayload where
  student_id : Nat
  student_name : String
  marked : Bool
  message : String
deriving DecidableEq

/-- The events a handler emits back to the client. -/
inductive ServerEvent where
  | errorEv (detail : String)
  | detection_skipped (session_id : String)
  | detection_started (session_id : String) (db_session_id : Option Nat)
  | attendance_marked (session_id : String) (db_session_id : Nat)
      (payload : AttendancePayload)
  | detection_result (session_id : String) (db_session_id : Option Nat)
      (attendance : List AttendancePayload)
deriving DecidableEq

/-- `handle_start_detection` (server.py:138-172): when the connection
session has no linked ledger session, attempt `db.create_session`; a raise
(`createRes = .error`) is swallowed (`db_session_id` stays unset).  Either
way detection is enabled and `detection_started` is emitted with the
session's current `db_session_id`. -/
def handle_start_detection (m : SessionManager) (sid : Option Nat)
    (createRes : Except Unit (Option Nat)) (now : Nat) :
    SessionManager × List ServerEvent :=
  match sid with
  | none => (m, [.errorEv "Session non trouvee (sid manquant)"])
  | some sd =>
      match m.sid_to_session.lookup sd with
      | none => (m, [.errorEv "Session non trouvee"])
      | some k =>
          match m.sessions.lookup k with
          | none => (m, [.errorEv "Session non trouvee"])
          | some sess =>
              let step :=
                if sess.db_session_id = none then
                  match createRes with
                  | .ok v =>
                      let s1 := { sess with db_session_id := v }
                      ({ m with sessions := dictInsert m.sessions k s1 }, s1)
                  | .error _ => (m, sess)
                else (m, sess)
              let m2 := (set_detection step.1 sd true now).1
              (m2, [.detection_started step.2.session_id step.2.db_session_id])

/-- One face entry of the `run_detection` result consumed by
`handle_frame`; `f.get('name', 'unknown')` and `f.get('student_id')`
become optional fields. -/
structure ServerFace where
  name : Option String
  student_id : Option Nat
deriving DecidableEq

/-- The `frame` event payload once parsed: `none` models a non-dict
payload, the inner option models the missing `image` key. -/
structure FramePayload where
  image : Option String
deriving DecidableEq

/-- The value returned by `run_detection`; `faces = none` models a result
whose `faces` entry is not a list. -/
structure DetectionOutput where
  faces : Option (List ServerFace)
deriving DecidableEq

/-- External side effects performed while handling a frame, in order. -/
inductive FrameAction where
  | decodeImage
  | runDetection
  | markCall (db_session_id : Nat) (student_id : Nat)
deriving DecidableEq

/-- The attendance-marking loop of `handle_frame` (server.py:262-294): for
every face with a truthy `student_id` (present and non-zero) call
`mark_attendance_socketIO` unconditionally — there is no per-session
marked set — emit `attendance_marked` and collect the record. -/
def server_mark_faces (db : DBState) (session_id : String) (db_session_id : Nat)
    (faces : List ServerFace) (t : Nat) :
    DBState × List AttendancePayload × List ServerEvent × List FrameAction :=
  match faces with
  | [] => (db, [], [], [])
  | f :: rest =>
      let student_name := f.name.getD "unknown"
      if f.student_id.getD 0 ≠ 0 then
        let stid := f.student_id.getD 0
        let r := mark_attendance_socket db db_session_id stid t
        let combined := r.2.2 ++ " student name is : " ++ student_name
        let payload : AttendancePayload :=
          { student_id := stid, student_name := student_name,
            marked := r.2.1, message := combined }
        let rec1 := server_mark_faces r.1 session_id db_session_id rest t
        (rec1.1, payload :: rec1.2.1,
         .attendance_marked session_id db_session_id payload :: rec1.2.2.1,
         .markCall db_session_id stid :: rec1.2.2.2)
      else server_mark_faces db session_id db_session_id rest t

/-- `handle_frame` (server.py:200-307).  Transport decoding and
`run_detection` are external calls, modelled by the `decodeRes` and
`detectRes` parameters; the returned `FrameAction` trace records which of
them actually ran and every ledger mark call.  Payload validation happens
before the detection-enabled check, mirroring the source order. -/
def handle_frame (m : SessionManager) (db : DBState) (sid : Option Nat)
    (payload : Option FramePayload) (decodeRes : Except String (Option Unit))
    (detectRes : Except String DetectionOutput) (t : Nat) :
    SessionManager × DBState × List ServerEvent × List FrameAction :=
  match sid with
  | none => (m, db, [.errorEv "Session non trouvee (sid manquant)"], [])
  | some sd =>
      match get_by_sid m sd with
      | none => (m, db, [.errorEv "Session non trouvee"], [])
      | some sess =>
          match payload with
          | none => (m, db, [.errorEv "Payload attendu en objet JSON"], [])
          | some p =>
              match p.image with
              | none => (m, db, [.errorEv "image (base64) manquante"], [])
              | some img =>
                  if img = "" then (m, db, [.errorEv "image (base64) manquante"], [])
                  else if sess.detection = false then
                    (m, db, [.detection_skipped sess.session_id], [])
                  else
                    match decodeRes with
                    | .error _ =>
                        (m, db, [.errorEv "Impossible de decoder l image"],
                         [.decodeImage])
                    | .ok none =>
                        (m, db, [.errorEv "Image decodee est None"], [.decodeImage])
                    | .ok (some _) =>
                        match detectRes with
                        | .error _ =>
                            (m, db, [.errorEv "Erreur lors de la detection"],
                             [.decodeImage, .runDetection])
                        | .ok result =>
                            match sess.db_session_id, result.faces with
                            | some v, some faces =>
                                if v ≠ 0 then
                                  let r := server_mark_faces db sess.session_id v faces t
                                  (m, r.1,
                                   r.2.2.1 ++
                                     [.detection_result sess.session_id
                                       sess.db_session_id r.2.1],
                                   .decodeImage :: .runDetection :: r.2.2.2)
                                else
                                  (m, db,
                                   [.detection_result sess.session_id
                                     sess.db_session_id []],
                                   [.decodeImage, .runDetection])
                            | _, _ =>
                                (m, db,
                                 [.detection_result sess.session_id
                                   sess.db_session_id []],
                                 [.decodeImage, .runDetection])

/-! Concrete fixtures used by the witness and counterexample theorems. -/

/-- The store right after `init_database` on a fresh file: all tables empty. -/
def dbEmpty : DBState := { students := [], sessions := [], attendance := [] }

/-- Distance capability used by the concrete witnesses: the distance to a
gallery vector is its stored head entry, giving one distance per gallery
entry without rational arithmetic (the matcher theorems are quantified
over every capability, the spec's Euclidean one included). -/
def fdHead : List Encoding → Encoding → List ℚ :=
  fun ks _ => ks.map (fun k => k.headD 1)

def studentA : Student :=
  { id := 7, first_name := "Malek", last_name := "BD", email := "a"
    photo_path := some "students_photos/malek.jpg", encoding := some [0] }

def studentB : Student :=
  { id := 8, first_name := "Hamza", last_name := "TN", email := "b"
    photo_path := none, encoding := some [1] }

def studentNoEnc : Student :=
  { id := 9, first_name := "Nour", last_name := "XY", email := "c"
    photo_path := none, encoding := none }

/-- Store for the statistics witness: three students, two attendance rows
in ledger session 3. -/
def dbStats : DBState :=
  { students := [studentA, studentB, studentNoEnc], sessions := []
    attendance := [⟨3, 7, 1, "present"⟩, ⟨3, 8, 2, "present"⟩, ⟨4, 7, 3, "present"⟩] }

/-- Store for the deletion witness: student 7 attended sessions 1 and 2. -/
def dbDel : DBState :=
  { students := [studentA, studentB], sessions := []
    attendance := [⟨1, 7, 1, "present"⟩, ⟨1, 8, 1, "present"⟩, ⟨2, 7, 2, "present"⟩] }

/-- Store whose only student has no encoding: the gallery rebuilt from it
is empty. -/
def dbNoEnc : DBState := { students := [studentNoEnc], sessions := [], attendance := [] }

/-- Gallery fixture: two identities whose `fdHead` distances are 1 and 0. -/
def detFix : FaceDetector :=
  { tolerance := 1
    known_encodings := [[1], [0]]
    known_students :=
      [{ id := 7, name := "Malek BD", first_name := "Malek", last_name := "BD" },
       { id := 8, name := "Hamza TN", first_name := "Hamza", last_name := "TN" }]
    marked_students := [] }

/-- A detector with an empty gallery. -/
def detEmpty : FaceDetector :=
  { tolerance := 1/2, known_encodings := [], known_students := [], marked_students := [] }

/-- Probe face at downscaled region (10, 20, 30, 5). -/
def faceFix : FaceInput := { encoding := [0], top := 10, right := 20, bottom := 30, left := 5 }

/-- Connection session fixture for the disconnect claim. -/
def sessDisc : ConnSession :=
  { session_id := "s1", sid := 1, created_at := 0, last_seen := 0
    active := true, detection := false, db_session_id := some 5 }

def mgrDisc : SessionManager :=
  { sessions := [("s1", sessDisc)], sid_to_session := [(1, "s1")] }

/-- Detection-enabled connection session linked to ledger session 1. -/
def sessStream : ConnSession :=
  { session_id := "c3", sid := 2, created_at := 0, last_seen := 0
    active := true, detection := true, db_session_id := some 1 }

def mgrStream : SessionManager :=
  { sessions := [("c3", sessStream)], sid_to_session := [(2, "c3")] }

/-- Detection-disabled connection session for the skip claim. -/
def sessIdle : ConnSession :=
  { session_id := "c6", sid := 3, created_at := 0, last_seen := 0
    active := true, detection := false, db_session_id := some 1 }

def mgrIdle : SessionManager :=
  { sessions := [("c6", sessIdle)], sid_to_session := [(3, "c6")] }

/-- Connection session with no linked ledger session yet. -/
def sessFresh : ConnSession :=
  { session_id := "c9", sid := 4, created_at := 0, last_seen := 0
    active := true, detection := false, db_session_id := none }

/-- Store with a record for student 7 in ledger session 1. -/
def dbMarked : DBState :=
  { students := [studentA], sessions := [], attendance := [⟨1, 7, 0, "present"⟩] }

def mgrFresh : SessionManager :=
  { sessions := [("c9", sessFresh)], sid_to_session := [(4, "c9")] }

/-- The accepted match of the gallery fixture: identity 8 at distance 0,
reported at 4x the downscaled region of `faceFix`. -/
def matchFix : DetectedFace :=
  { student := { id := 8, name := "Hamza TN", first_name := "Hamza", last_name := "TN" }
    location := (40, 80, 120, 20)
    distance := 0
    confidence := (1 - 0) * 100 }

/-! General lemmas about the embedded operations. -/

theorem argmin_lt_length (l : List ℚ) (h : l ≠ []) : argmin l < l.length := by
  induction l with
  | nil => cases h rfl
  | cons x t ih =>
      cases t with
      | nil => simp [argmin]
      | cons y ys =>
          simp only [argmin]
          split
          · have := ih (by simp)
            simpa using Nat.succ_lt_succ this
          · simp

theorem argmin_le (l : List ℚ) (j : Nat) (hj : j < l.length) :
    l.getD (argmin l) 0 ≤ l.getD j 0 := by
  induction l generalizing j with
  | nil => simp at hj
  | cons x t ih =>
      cases t with
      | nil =>
          have hj0 : j = 0 := by
            have : j < 1 := by simpa using hj
            omega
          subst hj0
          simp [argmin]
      | cons y ys =>
          by_cases h : (y :: ys).getD (argmin (y :: ys)) 0 < x
          · simp only [argmin, if_pos h, List.getD_cons_succ]
            cases j with
            | zero => simpa [List.getD_cons_zero] using le_of_lt h
            | succ k =>
                simp only [List.getD_cons_succ]
                exact ih k (by simpa using Nat.lt_of_succ_lt_succ hj)
          · simp only [argmin, if_neg h, List.getD_cons_zero]
            push_neg at h
            cases j with
            | zero => simp
            | succ k =>
                simp only [List.getD_cons_succ]
                exact le_trans h (ih k (by simpa using Nat.lt_of_succ_lt_succ hj))

theorem argmin_first (l : List ℚ) (j : Nat) (hj : j < argmin l) :
    l.getD (argmin l) 0 < l.getD j 0 := by
  induction l generalizing j with
  | nil => simp [argmin] at hj
  | cons x t ih =>
      cases t with
      | nil => simp [argmin] at hj
      | cons y ys =>
          by_cases h : (y :: ys).getD (argmin (y :: ys)) 0 < x
          · simp only [argmin, if_pos h] at hj ⊢
            cases j with
            | zero => simpa [List.getD_cons_zero] using h
            | succ k =>
                simp only [List.getD_cons_succ]
                exact ih k (Nat.lt_of_succ_lt_succ hj)
          · simp only [argmin, if_neg h] at hj
            omega

theorem processFace_accept (fd : List Encoding → Encoding → List ℚ)
    (det : FaceDetector) (f : FaceInput)
    (h0 : ¬ (fd det.known_encodings f.encoding).length = 0)
    (hacc : (fd det.known_encodings f.encoding).getD
        (argmin (fd det.known_encodings f.encoding)) 0 < det.tolerance) :
    processFace fd det f =
      some { student := det.known_students.getD
               (argmin (fd det.known_encodings f.encoding)) defaultInfo
             location := (4 * f.top, 4 * f.right, 4 * f.bottom, 4 * f.left)
             distance := (fd det.known_encodings f.encoding).getD
               (argmin (fd det.known_encodings f.encoding)) 0
             confidence := (1 - (fd det.known_encodings f.encoding).getD
               (argmin (fd det.known_encodings f.encoding)) 0) * 100 } := by
  simp only [processFace]
  rw [if_neg h0, if_pos hacc]

theorem processFace_reject (fd : List Encoding → Encoding → List ℚ)
    (det : FaceDetector) (f : FaceInput)
    (h0 : ¬ (fd det.known_encodings f.encoding).length = 0)
    (hrej : ¬ (fd det.known_encodings f.encoding).getD
        (argmin (fd det.known_encodings f.encoding)) 0 < det.tolerance) :
    processFace fd det f = none := by
  simp only [processFace]
  rw [if_neg h0, if_neg hrej]

theorem hasRecord_iff (db : DBState) (s i : Nat) :
    hasRecord db s i = true ↔ 0 < countRecords db s i := by
  simp [hasRecord, countRecords, List.any_eq_true, List.countP_pos_iff]

theorem hasRecord_insert (db : DBState) (s i t : Nat) :
    hasRecord { db with attendance := db.attendance ++ [⟨s, i, t, "present"⟩] } s i = true := by
  simp [hasRecord]

/-- Marking a pair that already has a record is a no-op returning `false`. -/
theorem markSeq_already (s i : Nat) (ts : List Nat) (db : DBState)
    (h : hasRecord db s i = true) :
    markSeq db s i ts = (db, List.replicate ts.length false) := by
  induction ts with
  | nil => simp [markSeq]
  | cons t rest ih =>
      simp [markSeq, mark_attendance_socket, insertOrIgnore, h, ih, List.replicate]

/-- C1: for every ledger session `s` and identity `i`, and every sequence
of `mark(s, i)` calls starting from a store with no record for the pair,
exactly one attendance record for `(s, i)` exists afterwards; the first
call returns `newly_marked = true` and every subsequent call returns
`false`, as a no-op rather than an error. -/
theorem C1_mark_at_most_once (db : DBState) (s i : Nat) (ts : List Nat)
    (h0 : countRecords db s i = 0) (hne : ts ≠ []) :
    countRecords (markSeq db s i ts).1 s i = 1 ∧
    (markSeq db s i ts).2 = true :: List.replicate (ts.length - 1) false := by
  cases ts with
  | nil => cases hne rfl
  | cons t rest =>
      have hno : hasRecord db s i = false := by
        cases h : hasRecord db s i with
        | false => rfl
        | true =>
            have := (hasRecord_iff db s i).1 h
            omega
      have hmark : mark_attendance_socket db s i t =
          ({ db with attendance := db.attendance ++ [⟨s, i, t, "present"⟩] }, true,
            "Presence marquee pour l etudiant ID: " ++ toString i) := by
        simp [mark_attendance_socket, insertOrIgnore, hno]
      have h1 : hasRecord
          { db with attendance := db.attendance ++ [⟨s, i, t, "present"⟩] } s i = true :=
        hasRecord_insert db s i t
      have hrest := markSeq_already s i rest _ h1
      refine ⟨?_, ?_⟩
      · show countRecords (markSeq db s i (t :: rest)).1 s i = 1
        simp only [markSeq, hmark, hrest]
        simp only [countRecords, List.countP_append] at h0 ⊢
        simp [h0, List.countP_cons]
      · simp [markSeq, hmark, hrest]

/-- Witness for C1: three marks of the pair (1, 2) on the empty store. -/
theorem C1_mark_at_most_once_witness :
    countRecords (markSeq dbEmpty 1 2 [10, 11, 12]).1 1 2 = 1 ∧
    (markSeq dbEmpty 1 2 [10, 11, 12]).2 =
      true :: List.replicate ([10, 11, 12].length - 1) false :=
  C1_mark_at_most_once dbEmpty 1 2 [10, 11, 12] (by decide) (by decide)

/-- C2: for every probe and every non-empty gallery snapshot, the matcher
accepts exactly when the minimum distance reported by the external
(Euclidean) distance capability is strictly below the tolerance; the
accepted identity sits at the lowest index attaining the minimum (the
first two conjuncts characterise `argmin` as the first minimiser), its
confidence is `(1 - best_distance) * 100`, and a face whose best distance
reaches the tolerance is omitted from the match list entirely. -/
theorem C2_matcher (fd : List Encoding → Encoding → List ℚ) (det : FaceDetector)
    (f : FaceInput) (hne : det.known_encodings ≠ [])
    (hlen : (fd det.known_encodings f.encoding).length = det.known_encodings.length) :
    let ds := fd det.known_encodings f.encoding
    let bi := argmin ds
    let bd := ds.getD bi 0
    bi < ds.length ∧
    (∀ j, j < ds.length → bd ≤ ds.getD j 0) ∧
    (∀ j, j < bi → bd < ds.getD j 0) ∧
    (bd < det.tolerance →
      detect_faces_in_frame fd det [f] =
        [{ student := det.known_students.getD bi defaultInfo
           location := (4 * f.top, 4 * f.right, 4 * f.bottom, 4 * f.left)
           distance := bd
           confidence := (1 - bd) * 100 }]) ∧
    (det.tolerance ≤ bd → detect_faces_in_frame fd det [f] = []) := by
  intro ds bi bd
  have h0 : ¬ ds.length = 0 := by
    rw [hlen]
    simpa using hne
  have hds : ds ≠ [] := by
    intro hbad
    rw [hbad] at h0
    exact h0 rfl
  refine ⟨argmin_lt_length ds hds, fun j hj => argmin_le ds j hj,
    fun j hj => argmin_first ds j hj, ?_, ?_⟩
  · intro hacc
    simp only [detect_faces_in_frame, List.filterMap_cons, List.filterMap_nil,
      processFace_accept fd det f h0 hacc]
  · intro hrej
    simp only [detect_faces_in_frame, List.filterMap_cons, List.filterMap_nil,
      processFace_reject fd det f h0 (not_lt.mpr hrej)]

/-- Witness for C2 on the two-identity gallery fixture: probe `[0]` at
distances `[1, 0]`, tolerance `1/2`, accepted identity 8. -/
theorem C2_matcher_witness :
    let ds := fdHead detFix.known_encodings faceFix.encoding
    let bi := argmin ds
    let bd := ds.getD bi 0
    bi < ds.length ∧
    (∀ j, j < ds.length → bd ≤ ds.getD j 0) ∧
    (∀ j, j < bi → bd < ds.getD j 0) ∧
    (bd < detFix.tolerance →
      detect_faces_in_frame fdHead detFix [faceFix] =
        [{ student := detFix.known_students.getD bi defaultInfo
           location := (4 * faceFix.top, 4 * faceFix.right, 4 * faceFix.bottom,
             4 * faceFix.left)
           distance := bd
           confidence := (1 - bd) * 100 }]) ∧
    (detFix.tolerance ≤ bd → detect_faces_in_frame fdHead detFix [faceFix] = []) :=
  C2_matcher fdHead detFix faceFix (by decide) (by rfl)

/-- C7: every entry of the match list returned for a frame comes from a
face located at some downscaled region `(t, r, b, l)` and is reported at
the original-frame region `(4t, 4r, 4b, 4l)`. -/
theorem C7_rescale (fd : List Encoding → Encoding → List ℚ) (det : FaceDetector)
    (faces : List FaceInput) (r : DetectedFace)
    (hr : r ∈ detect_faces_in_frame fd det faces) :
    ∃ f ∈ faces, processFace fd det f = some r ∧
      r.location = (4 * f.top, 4 * f.right, 4 * f.bottom, 4 * f.left) := by
  rcases List.mem_filterMap.1 hr with ⟨f, hf, hpf⟩
  refine ⟨f, hf, hpf, ?_⟩
  revert hpf
  simp only [processFace]
  split
  · intro h
    cases h
  · split
    · intro h
      cases h
      rfl
    · intro h
      cases h

/-- Witness for C7: the fixture face at downscaled region (10, 20, 30, 5)
is reported at (40, 80, 120, 20). -/
theorem C7_rescale_witness :
    ∃ f ∈ [faceFix], processFace fdHead detFix f = some matchFix ∧
      matchFix.location = (4 * f.top, 4 * f.right, 4 * f.bottom, 4 * f.left) :=
  C7_rescale fdHead detFix [faceFix] matchFix (by exact List.Mem.head [])

theorem dictInsert_cons_ne {α β : Type} [BEq α] (p : α × β) (rest : List (α × β))
    (k : α) (v : β) (h : (p.1 == k) = false) :
    dictInsert (p :: rest) k v = p :: dictInsert rest k v := by
  by_cases h2 : rest.any (fun q => q.1 == k)
  · simp [dictInsert, List.any_cons, h, h2]
  · simp [dictInsert, List.any_cons, h, h2]

theorem lookup_dictInsert {α β : Type} [BEq α] [LawfulBEq α]
    (l : List (α × β)) (k : α) (v : β) :
    (dictInsert l k v).lookup k = some v := by
  induction l with
  | nil => simp [dictInsert, List.lookup]
  | cons p rest ih =>
      by_cases h : (p.1 == k) = true
      · simp [dictInsert, List.any_cons, h, List.lookup]
      · rw [dictInsert_cons_ne p rest k v (by simpa using h)]
        cases p with
        | mk a b =>
            have hka : (k == a) = false := by
              simp only [beq_eq_false_iff_ne]
              intro he
              exact h (by simp [he])
            simp [List.lookup, hka, ih]

theorem lookup_dictPop {α β : Type} [BEq α] [LawfulBEq α]
    (l : List (α × β)) (k : α) :
    (dictPop l k).lookup k = none := by
  induction l with
  | nil => rfl
  | cons p rest ih =>
      cases p with
      | mk a b =>
          by_cases h : (a == k) = true
          · simpa [dictPop, List.filter_cons, h] using ih
          · have ha : (a == k) = false := by simpa using h
            have hka : (k == a) = false := by
              simp only [beq_eq_false_iff_ne] at ha ⊢
              exact fun he => ha he.symm
            simpa [dictPop, List.filter_cons, ha, List.lookup, hka] using ih

/-- C8 counterexample: after the only client disconnects, the connection
session record is still present in the registry (merely flagged
inactive), so `close` does not remove the connection session from the
registry as the claim states. -/
theorem C8_counterexample :
    (handle_disconnect mgrDisc dbEmpty (some 1) 9).1.sessions.lookup "s1" =
      some { sessDisc with active := false, last_seen := 9 } := rfl

/-- C8 amended: on disconnect of a known connection, `mark_inactive`
removes the reverse connection-to-session mapping and leaves the ledger
store untouched (no end_time is set), but the connection session record
itself remains in the registry, flagged inactive. -/
theorem C8_close (m : SessionManager) (db : DBState) (sd : Nat) (k : String)
    (sess : ConnSession) (now : Nat)
    (h1 : m.sid_to_session.lookup sd = some k)
    (h2 : m.sessions.lookup k = some sess) :
    (handle_disconnect m db (some sd) now).1.sid_to_session.lookup sd = none ∧
    (handle_disconnect m db (some sd) now).1.sessions.lookup k =
      some { sess with active := false, last_seen := now } ∧
    (handle_disconnect m db (some sd) now).2 = db := by
  refine ⟨?_, ?_, ?_⟩
  · simp only [handle_disconnect, mark_inactive, h1, h2]
    exact lookup_dictPop m.sid_to_session sd
  · simp only [handle_disconnect, mark_inactive, h1, h2]
    exact lookup_dictInsert m.sessions k _
  · simp [handle_disconnect]

/-- Witness for C8 on the one-client registry fixture. -/
theorem C8_close_witness :
    (handle_disconnect mgrDisc dbEmpty (some 1) 9).1.sid_to_session.lookup 1 = none ∧
    (handle_disconnect mgrDisc dbEmpty (some 1) 9).1.sessions.lookup "s1" =
      some { sessDisc with active := false, last_seen := 9 } ∧
    (handle_disconnect mgrDisc dbEmpty (some 1) 9).2 = dbEmpty :=
  C8_close mgrDisc dbEmpty 1 "s1" sessDisc 9 rfl rfl

/-- C6: a frame event carrying a non-empty image on a session whose
detection flag is off yields exactly the lightweight skipped
acknowledgment: the registry and the store are returned unchanged and no
decode, extraction or ledger action is performed (empty action trace). -/
theorem C6_skip (m : SessionManager) (db : DBState) (sd : Nat) (k : String)
    (sess : ConnSession) (p : FramePayload) (img : String)
    (decodeRes : Except String (Option Unit))
    (detectRes : Except String DetectionOutput) (t : Nat)
    (h1 : m.sid_to_session.lookup sd = some k)
    (h2 : m.sessions.lookup k = some sess)
    (hdet : sess.detection = false)
    (himg : p.image = some img) (hne : img ≠ "") :
    handle_frame m db (some sd) (some p) decodeRes detectRes t =
      (m, db, [ServerEvent.detection_skipped sess.session_id], []) := by
  simp [handle_frame, get_by_sid, h1, h2, himg, hne, hdet]

/-- Witness for C6 on the detection-disabled session fixture. -/
theorem C6_skip_witness :
    handle_frame mgrIdle dbEmpty (some 3) (some { image := some "abc" })
        (Except.ok (some ())) (Except.ok { faces := some [] }) 1 =
      (mgrIdle, dbEmpty, [ServerEvent.detection_skipped sessIdle.session_id], []) :=
  C6_skip mgrIdle dbEmpty 3 "c6" sessIdle { image := some "abc" } "abc"
    (Except.ok (some ())) (Except.ok { faces := some [] }) 1 rfl rfl rfl rfl
    (by decide)

/-- C9: when the ledger create-session call raises during start_detection
on a session with no linked ledger session, the failure is swallowed:
detection is still enabled and `detection_started` is emitted with a null
ledger-session id; a subsequently pushed frame is fully processed through
decode and detection, but no mark call is ever issued and the store is
unchanged, because the marking loop requires a truthy linked ledger id. -/
theorem C9_create_failure_swallowed (m : SessionManager) (sd : Nat) (k : String)
    (sess : ConnSession) (now : Nat)
    (h1 : m.sid_to_session.lookup sd = some k)
    (h2 : m.sessions.lookup k = some sess)
    (h3 : sess.db_session_id = none) :
    (handle_start_detection m (some sd) (Except.error ()) now).2 =
      [ServerEvent.detection_started sess.session_id none] ∧
    (handle_start_detection m (some sd) (Except.error ()) now).1.sessions.lookup k =
      some { sess with detection := true, last_seen := now } ∧
    (∀ (db : DBState) (img : String) (faces : List ServerFace) (t : Nat),
      img ≠ "" →
      handle_frame (handle_start_detection m (some sd) (Except.error ()) now).1 db
          (some sd) (some { image := some img }) (Except.ok (some ()))
          (Except.ok { faces := some faces }) t =
        ((handle_start_detection m (some sd) (Except.error ()) now).1, db,
         [ServerEvent.detection_result sess.session_id none []],
         [FrameAction.decodeImage, FrameAction.runDetection])) := by
  have hstep : handle_start_detection m (some sd) (Except.error ()) now =
      (SessionManager.mk
        (dictInsert m.sessions k { sess with detection := true, last_seen := now })
        m.sid_to_session,
       [ServerEvent.detection_started sess.session_id none]) := by
    simp [handle_start_detection, h1, h2, h3, set_detection]
  refine ⟨by rw [hstep], ?_, ?_⟩
  · rw [hstep]
    exact lookup_dictInsert m.sessions k _
  · intro db img faces t hne
    rw [hstep]
    simp [handle_frame, get_by_sid, h1, lookup_dictInsert, hne, h3]

/-- Witness for C9 on the fresh-session fixture. -/
theorem C9_create_failure_swallowed_witness :
    (handle_start_detection mgrFresh (some 4) (Except.error ()) 10).2 =
      [ServerEvent.detection_started "c9" none] ∧
    handle_frame (handle_start_detection mgrFresh (some 4) (Except.error ()) 10).1
        dbEmpty (some 4) (some { image := some "zz" }) (Except.ok (some ()))
        (Except.ok { faces := some [{ name := some "A", student_id := some 7 }] }) 3 =
      ((handle_start_detection mgrFresh (some 4) (Except.error ()) 10).1, dbEmpty,
       [ServerEvent.detection_result "c9" none []],
       [FrameAction.decodeImage, FrameAction.runDetection]) :=
  ⟨(C9_create_failure_swallowed mgrFresh 4 "c9" sessFresh 10 rfl rfl rfl).1,
   (C9_create_failure_swallowed mgrFresh 4 "c9" sessFresh 10 rfl rfl rfl).2.2
     dbEmpty "zz" [{ name := some "A", student_id := some 7 }] 3 (by decide)⟩

/-- C4: for every ledger session, `session_stats` reports `total` as the
count of all enrolled students (independent of the session), `present` as
the count of that session's attendance records, `absent = total -
present`, and `percentage = present/total*100`, defined as 0 when the
student table is empty. -/
theorem C4_session_stats (db : DBState) (s : Nat) :
    (get_session_stats db s).total = db.students.length ∧
    (∀ s2, (get_session_stats db s2).total = (get_session_stats db s).total) ∧
    (get_session_stats db s).present =
      db.attendance.countP (fun r => r.session_id == s) ∧
    (get_session_stats db s).absent =
      ((get_session_stats db s).total : Int) - ((get_session_stats db s).present : Int) ∧
    (0 < (get_session_stats db s).total →
      (get_session_stats db s).percentage =
        ((get_session_stats db s).present : ℚ) / ((get_session_stats db s).total : ℚ)
          * 100) ∧
    ((get_session_stats db s).total = 0 → (get_session_stats db s).percentage = 0) := by
  refine ⟨rfl, fun s2 => rfl, ?_, rfl, ?_, ?_⟩
  · simp [get_session_stats, List.countP_eq_length_filter]
  · intro h
    have h2 : 0 < db.students.length := h
    simp [get_session_stats, if_pos h2]
  · intro h
    have h2 : db.students.length = 0 := h
    simp [get_session_stats, h2]

/-- Witness for C4 on a three-student store with two present in session 3. -/
theorem C4_session_stats_witness :
    (get_session_stats dbStats 3).total = dbStats.students.length ∧
    (∀ s2, (get_session_stats dbStats s2).total = (get_session_stats dbStats 3).total) ∧
    (get_session_stats dbStats 3).present =
      dbStats.attendance.countP (fun r => r.session_id == 3) ∧
    (get_session_stats dbStats 3).absent =
      ((get_session_stats dbStats 3).total : Int)
        - ((get_session_stats dbStats 3).present : Int) ∧
    (0 < (get_session_stats dbStats 3).total →
      (get_session_stats dbStats 3).percentage =
        ((get_session_stats dbStats 3).present : ℚ)
          / ((get_session_stats dbStats 3).total : ℚ) * 100) ∧
    ((get_session_stats dbStats 3).total = 0 →
      (get_session_stats dbStats 3).percentage = 0) :=
  C4_session_stats dbStats 3

/-- Counting helper for C10: filtering out one student's rows splits the
per-session row count. -/
theorem countP_erase_student (l : List AttendanceRecord) (s2 sid : Nat) :
    (l.filter (fun r => !(r.student_id == sid))).countP (fun r => r.session_id == s2)
      + l.countP (fun r => r.session_id == s2 && r.student_id == sid)
      = l.countP (fun r => r.session_id == s2) := by
  rw [List.countP_filter]
  induction l with
  | nil => simp
  | cons a l ih =>
      by_cases hs : (a.session_id == s2) = true <;>
        by_cases hi : (a.student_id == sid) = true <;>
          simp [List.countP_cons, hs, hi] <;> omega

/-- C10: deleting an existing student also deletes every attendance record
of that student across all ledger sessions in the same operation (each
session's `present` statistic drops by the student's records there, so it
strictly decreases where the student was present) and returns the stored
photo path; for an unknown id the operation returns `(false, none)` and
changes nothing. -/
theorem C10_remove_student (db : DBState) (sid : Nat) :
    (db.students.find? (fun st => st.id == sid) = none →
      remove_student db sid = (db, false, none)) ∧
    (∀ st, db.students.find? (fun st2 => st2.id == sid) = some st →
      (remove_student db sid).2.1 = true ∧
      (remove_student db sid).2.2 = st.photo_path ∧
      (∀ r ∈ (remove_student db sid).1.attendance, ¬ r.student_id = sid) ∧
      (∀ s2, (get_session_stats (remove_student db sid).1 s2).present
          + countRecords db s2 sid = (get_session_stats db s2).present) ∧
      (∀ s2, 0 < countRecords db s2 sid →
        (get_session_stats (remove_student db sid).1 s2).present
          < (get_session_stats db s2).present)) := by
  constructor
  · intro h
    simp [remove_student, h]
  · intro st hst
    have hcnt : ∀ s2, (get_session_stats (remove_student db sid).1 s2).present
        + countRecords db s2 sid = (get_session_stats db s2).present := by
      intro s2
      simp only [remove_student, hst, get_session_stats, countRecords]
      rw [← List.countP_eq_length_filter, ← List.countP_eq_length_filter]
      exact countP_erase_student db.attendance s2 sid
    refine ⟨by simp [remove_student, hst], by simp [remove_student, hst], ?_, hcnt, ?_⟩
    · intro r hr
      simp only [remove_student, hst] at hr
      have := (List.mem_filter.1 hr).2
      simpa using this
    · intro s2 h0
      have := hcnt s2
      omega

/-- Witness for C10: deleting student 7 from the two-student store drops
session 1's present count. -/
theorem C10_remove_student_witness :
    (remove_student dbDel 7).2.1 = true ∧
    (remove_student dbDel 7).2.2 = some "students_photos/malek.jpg" ∧
    (get_session_stats (remove_student dbDel 7).1 1).present <
      (get_session_stats dbDel 1).present := by
  have h := (C10_remove_student dbDel 7).2 studentA (by rfl)
  exact ⟨h.1, h.2.1, h.2.2.2.2 1 (by decide)⟩

theorem desktop_mark_loop_cons_mem (db : DBState) (session_id : Nat)
    (marked : List Nat) (f : DetectedFace) (rest : List DetectedFace) (t : Nat)
    (hm : f.student.id ∈ marked) :
    desktop_mark_loop db session_id marked (f :: rest) t =
      desktop_mark_loop db session_id marked rest t := by
  simp [desktop_mark_loop, hm]

theorem desktop_mark_loop_cons_old (db : DBState) (session_id : Nat)
    (marked : List Nat) (f : DetectedFace) (rest : List DetectedFace) (t : Nat)
    (hm : f.student.id ∉ marked)
    (hr : hasRecord db session_id f.student.id = true) :
    desktop_mark_loop db session_id marked (f :: rest) t =
      ((desktop_mark_loop db session_id marked rest t).1,
       (desktop_mark_loop db session_id marked rest t).2.1,
       (session_id, f.student.id) ::
         (desktop_mark_loop db session_id marked rest t).2.2) := by
  simp [desktop_mark_loop, hm, mark_attendance, insertOrIgnore, hr]

theorem desktop_mark_loop_cons_new (db : DBState) (session_id : Nat)
    (marked : List Nat) (f : DetectedFace) (rest : List DetectedFace) (t : Nat)
    (hm : f.student.id ∉ marked)
    (hr : hasRecord db session_id f.student.id = false) :
    desktop_mark_loop db session_id marked (f :: rest) t =
      ((desktop_mark_loop
          { db with attendance :=
              db.attendance ++ [⟨session_id, f.student.id, t, "present"⟩] }
          session_id (marked ++ [f.student.id]) rest t).1,
       (desktop_mark_loop
          { db with attendance :=
              db.attendance ++ [⟨session_id, f.student.id, t, "present"⟩] }
          session_id (marked ++ [f.student.id]) rest t).2.1,
       (session_id, f.student.id) ::
         (desktop_mark_loop
            { db with attendance :=
                db.attendance ++ [⟨session_id, f.student.id, t, "present"⟩] }
            session_id (marked ++ [f.student.id]) rest t).2.2) := by
  simp [desktop_mark_loop, hm, mark_attendance, insertOrIgnore, hr]

theorem hasRecord_append (db : DBState) (s i : Nat) (r : AttendanceRecord)
    (h : hasRecord db s i = true) :
    hasRecord { db with attendance := db.attendance ++ [r] } s i = true := by
  simp only [hasRecord, List.any_append] at h ⊢
  simp [h]

theorem desktop_mark_loop_mono (faces : List DetectedFace) (db : DBState)
    (session_id : Nat) (marked : List Nat) (t s2 i2 : Nat)
    (h : hasRecord db s2 i2 = true) :
    hasRecord (desktop_mark_loop db session_id marked faces t).1 s2 i2 = true := by
  induction faces generalizing db marked with
  | nil => simpa [desktop_mark_loop] using h
  | cons f rest ih =>
      by_cases hm : f.student.id ∈ marked
      · rw [desktop_mark_loop_cons_mem db session_id marked f rest t hm]
        exact ih db marked h
      · by_cases hr : hasRecord db session_id f.student.id = true
        · rw [desktop_mark_loop_cons_old db session_id marked f rest t hm hr]
          exact ih db marked h
        · have hrf : hasRecord db session_id f.student.id = false := by
            cases h2 : hasRecord db session_id f.student.id
            · rfl
            · exact absurd h2 hr
          rw [desktop_mark_loop_cons_new db session_id marked f rest t hm hrf]
          exact ih _ _ (hasRecord_append db s2 i2 _ h)

/-- Correctness of the desktop marking loop: no mark call is made for an
identity already in the marked set, and every identity added to the set
corresponds to a freshly inserted record. -/
theorem desktop_mark_loop_spec (faces : List DetectedFace) (db : DBState)
    (session_id : Nat) (marked : List Nat) (t : Nat) :
    (∀ i ∈ marked, (session_id, i) ∉ (desktop_mark_loop db session_id marked faces t).2.2) ∧
    (∀ i ∈ (desktop_mark_loop db session_id marked faces t).2.1,
        i ∈ marked ∨
          (hasRecord db session_id i = false ∧
            hasRecord (desktop_mark_loop db session_id marked faces t).1
              session_id i = true)) := by
  induction faces generalizing db marked with
  | nil => simp [desktop_mark_loop]
  | cons f rest ih =>
      by_cases hm : f.student.id ∈ marked
      · rw [desktop_mark_loop_cons_mem db session_id marked f rest t hm]
        exact ih db marked
      · by_cases hr : hasRecord db session_id f.student.id = true
        · rw [desktop_mark_loop_cons_old db session_id marked f rest t hm hr]
          refine ⟨?_, ?_⟩
          · intro i hi
            simp only [List.mem_cons, not_or]
            refine ⟨?_, (ih db marked).1 i hi⟩
            intro hp
            injection hp with hp1 hp2
            exact hm (hp2 ▸ hi)
          · intro i hi
            exact (ih db marked).2 i hi
        · have hrf : hasRecord db session_id f.student.id = false := by
            cases h2 : hasRecord db session_id f.student.id
            · rfl
            · exact absurd h2 hr
          rw [desktop_mark_loop_cons_new db session_id marked f rest t hm hrf]
          refine ⟨?_, ?_⟩
          · intro i hi
            simp only [List.mem_cons, not_or]
            refine ⟨?_, ?_⟩
            · intro hp
              injection hp with hp1 hp2
              exact hm (hp2 ▸ hi)
            · exact (ih _ _).1 i (List.mem_append_left _ hi)
          · intro i hi
            rcases (ih _ _).2 i hi with hmem | ⟨hf, ht⟩
            · rcases List.mem_append.1 hmem with hA | hB
              · exact Or.inl hA
              · have hieq : i = f.student.id := by simpa using hB
                subst hieq
                refine Or.inr ⟨hrf, ?_⟩
                exact desktop_mark_loop_mono rest _ session_id _ t session_id
                  f.student.id (hasRecord_insert db session_id f.student.id t)
            · refine Or.inr ⟨?_, ht⟩
              cases h2 : hasRecord db session_id i
              · rfl
              · exact absurd
                  (hasRecord_append db session_id i
                    ⟨session_id, f.student.id, t, "present"⟩ h2)
                  (by simp [hf])

/-- The socket-server marking loop issues one mark call per face with a
truthy student id, independently of the store contents: no in-memory
deduplication happens there. -/
theorem server_mark_faces_calls (faces : List ServerFace) (db : DBState)
    (session_id : String) (v : Nat) (t : Nat) :
    (server_mark_faces db session_id v faces t).2.2.2 =
      faces.filterMap (fun f =>
        if f.student_id.getD 0 ≠ 0 then
          some (FrameAction.markCall v (f.student_id.getD 0))
        else none) := by
  induction faces generalizing db with
  | nil => simp [server_mark_faces]
  | cons f rest ih =>
      by_cases hf : f.student_id.getD 0 ≠ 0
      · simp [server_mark_faces, hf, ih]
      · simp [server_mark_faces, hf, ih]

/-- C3 counterexample: student 7 already holds an attendance record in
ledger session 1 (it is already marked for that session), yet the frame
handler issues another mark call for it: the server keeps no per-session
marked-identities set. -/
theorem C3_counterexample :
    hasRecord dbMarked 1 7 = true ∧
    (handle_frame mgrStream dbMarked (some 2) (some { image := some "img" })
        (Except.ok (some ()))
        (Except.ok { faces := some [{ name := some "A", student_id := some 7 }] })
        5).2.2.2 =
      [FrameAction.decodeImage, FrameAction.runDetection, FrameAction.markCall 1 7] :=
  ⟨rfl, rfl⟩

/-- C3 amended: in the desktop capture loop, mark is called only for
identities not yet in `marked_students` and an identity is added to the
set only when the call reports a new record; the socket server's frame
handler, by contrast, maintains no marked set and issues a mark call for
every accepted match with a truthy student id on every frame, whatever
the store already contains. -/
theorem C3_marking_discipline (db : DBState) (session_id : Nat) (marked : List Nat)
    (faces : List DetectedFace) (t : Nat) :
    (∀ i ∈ marked, (session_id, i) ∉ (desktop_mark_loop db session_id marked faces t).2.2) ∧
    (∀ i ∈ (desktop_mark_loop db session_id marked faces t).2.1,
        i ∈ marked ∨
          (hasRecord db session_id i = false ∧
            hasRecord (desktop_mark_loop db session_id marked faces t).1
              session_id i = true)) ∧
    (∀ (db2 : DBState) (sid2 : String) (v t2 : Nat) (faces2 : List ServerFace),
        (server_mark_faces db2 sid2 v faces2 t2).2.2.2 =
          faces2.filterMap (fun f2 =>
            if f2.student_id.getD 0 ≠ 0 then
              some (FrameAction.markCall v (f2.student_id.getD 0))
            else none)) :=
  ⟨(desktop_mark_loop_spec faces db session_id marked t).1,
   (desktop_mark_loop_spec faces db session_id marked t).2,
   fun db2 sid2 v t2 faces2 => server_mark_faces_calls faces2 db2 sid2 v t2⟩

/-- Witness for C3 amended, instantiated on the fixture store with
identity 7 pre-marked. -/
theorem C3_marking_discipline_witness :
    (∀ i ∈ [7], ((1 : Nat), i) ∉ (desktop_mark_loop dbMarked 1 [7] [matchFix] 5).2.2) ∧
    (∀ i ∈ (desktop_mark_loop dbMarked 1 [7] [matchFix] 5).2.1,
        i ∈ [7] ∨
          (hasRecord dbMarked 1 i = false ∧
            hasRecord (desktop_mark_loop dbMarked 1 [7] [matchFix] 5).1 1 i = true)) ∧
    (∀ (db2 : DBState) (sid2 : String) (v t2 : Nat) (faces2 : List ServerFace),
        (server_mark_faces db2 sid2 v faces2 t2).2.2.2 =
          faces2.filterMap (fun f2 =>
            if f2.student_id.getD 0 ≠ 0 then
              some (FrameAction.markCall v (f2.student_id.getD 0))
            else none)) :=
  C3_marking_discipline dbMarked 1 [7] [matchFix] 5

/-- C5 counterexample: against an empty gallery snapshot the one-shot
detect endpoint does not complete normally: it rejects the request with
an HTTP 400 error detail before running any detection. -/
theorem C5_counterexample :
    detect_and_mark_attendance fdHead 1 dbNoEnc 1 [faceFix] 0 =
      Except.error "Aucun encodage etudiant disponible" := rfl

/-- C5 amended: with an empty gallery snapshot the matcher itself treats
every located face as no match, completing normally with an empty match
list, but the one-shot detect endpoint rejects the request with a 400
error (no student encoding available) instead of completing normally. -/
theorem C5_empty_gallery (fd : List Encoding → Encoding → List ℚ)
    (hfd : ∀ e, (fd [] e).length = 0) (det : FaceDetector)
    (hdet : det.known_encodings = []) (faces : List FaceInput) (tol : ℚ)
    (db : DBState) (session_id : Nat) (t : Nat)
    (hdb : (get_student_encodings db).1 = []) :
    detect_faces_in_frame fd det faces = [] ∧
    detect_and_mark_attendance fd tol db session_id faces t =
      Except.error "Aucun encodage etudiant disponible" := by
  constructor
  · refine List.filterMap_eq_nil_iff.mpr ?_
    intro f hf
    simp [processFace, hdet, hfd]
  · simp [detect_and_mark_attendance, hdb]

/-- Witness for C5 on the no-encoding store and the empty-gallery detector. -/
theorem C5_empty_gallery_witness :
    detect_faces_in_frame fdHead detEmpty [faceFix] = [] ∧
    detect_and_mark_attendance fdHead 1 dbNoEnc 1 [faceFix] 0 =
      Except.error "Aucun encodage etudiant disponible" :=
  C5_empty_gallery fdHead (fun _ => rfl) detEmpty rfl [faceFix] 1 dbNoEnc 1 0 rfl

end FaceAttendance
